import Mathlib

/-!
Verification of the valyu-agentcore streaming-event reducer and gateway
polling logic.

The development shallowly embeds the relevant Python code:

* `examples/app.py`, function `invoke_runtime_streaming` — the
  streaming-event reducer: one SSE line at a time is decoded and folded
  into accumulated text, tool notifications and extracted citation
  sources (`reduceLine`, `handleEvent`, `extract_sources`, ...);
* `examples/app.py`, function `main` — the consumer loop that drains the
  queue of notifications (`consumeMsg`, `consumeAll`);
* `examples/app.py`, the transport-failure fallback in
  `invoke_runtime_streaming` (`handleStreamFailure`);
* `valyu_agentcore/gateway.py`, the target-status polling loops of
  `setup_valyu_gateway` and `add_valyu_target` (`pollTargetFrom`,
  `add_valyu_target`, `setup_poll_phase`).

Python values decoded from JSON are embedded as the inductive `Json`;
Python operations that can raise (subscripting, attribute access on the
wrong type, string concatenation of a non-string, ...) are embedded as
`Option`-valued functions, `none` standing for an uncaught exception.
Non-integer JSON numbers are carried as raw lexemes (`Json.flt`); no
claim examined here depends on float semantics.  Truthy non-string
values reaching Python string operations (an f-string rendering a list,
for example) are likewise modelled as failures; no claim depends on
them.
-/

/-- Embedding of the Python values produced by `json.loads`. -/
inductive Json where
  | null : Json
  | bool : Bool → Json
  | num : Int → Json
  | flt : String → Json
  | str : String → Json
  | arr : List Json → Json
  | obj : List (String × Json) → Json

namespace Json

/-- Python truthiness (`if x:`) for decoded JSON values.  A non-integer
number lexeme is treated as truthy; no claim branches on one. -/
def truthy : Json → Bool
  | .null => false
  | .bool b => b
  | .num n => n != 0
  | .flt _ => true
  | .str s => s ≠ ""
  | .arr xs => !xs.isEmpty
  | .obj kvs => !kvs.isEmpty

/-- Whether the value is a dict (`isinstance(x, dict)`). -/
def isObj : Json → Bool
  | .obj _ => true
  | _ => false

/-- Extract a Python string; `none` for any other value. -/
def asStr : Json → Option String
  | .str s => some s
  | _ => none

end Json

/-- Python `d.get(k, dflt)`: `none` models the `AttributeError` raised
when the receiver is not a dict. -/
def pyGet : Json → String → Json → Option Json
  | .obj kvs, k, dflt => some (((kvs.find? (fun p => p.1 = k)).map (fun p => p.2)).getD dflt)
  | _, _, _ => none

/-- Python `d[k]` for a string key: `KeyError` when absent, `TypeError`
when the receiver is not a dict; both are `none`. -/
def pyIndex : Json → String → Option Json
  | .obj kvs, k => (kvs.find? (fun p => p.1 = k)).map (fun p => p.2)
  | _, _ => none

/-- Python `k in x` for a string `k`: key test on dicts, element test on
lists, substring test on strings; `TypeError` (`none`) otherwise. -/
def pyContains : Json → String → Option Bool
  | .obj kvs, k => some (kvs.any (fun p => p.1 = k))
  | .arr xs, k => some (xs.any (fun j => match j with | .str s => s = k | _ => false))
  | .str s, k => some (decide (k.toList <:+: s.toList))
  | _, _ => none

/-- Python `x[:n]`: defined on strings (by code point) and lists;
`TypeError` (`none`) otherwise. -/
def pySlice : Json → Nat → Option Json
  | .str s, n => some (.str (String.mk (s.toList.take n)))
  | .arr xs, n => some (.arr (xs.take n))
  | _, _ => none

/-- Python `for x in j`: list elements, string code points (as 1-char
strings), dict keys; `TypeError` (`none`) otherwise. -/
def pyIter : Json → Option (List Json)
  | .arr xs => some xs
  | .str s => some (s.toList.map (fun c => .str (String.mk [c])))
  | .obj kvs => some (kvs.map (fun p => .str p.1))
  | _ => none

/-- JSON whitespace accepted by Python `json.loads`. -/
def isJsonWs (c : Char) : Bool :=
  c = ' ' || c = '\t' || c = '\n' || c = '\r'

/-- Drop leading JSON whitespace. -/
def skipWs : List Char → List Char
  | [] => []
  | c :: cs => if isJsonWs c then skipWs cs else c :: cs

/-- Value of a hex digit. -/
def hexVal (c : Char) : Option Nat :=
  if '0' ≤ c ∧ c ≤ '9' then some (c.toNat - 48)
  else if 'a' ≤ c ∧ c ≤ 'f' then some (c.toNat - 87)
  else if 'A' ≤ c ∧ c ≤ 'F' then some (c.toNat - 55)
  else none

/-- Decoded character of a single-character JSON escape. -/
def escChar (e : Char) : Option Char :=
  if e = '"' then some '"'
  else if e = '\\' then some '\\'
  else if e = '/' then some '/'
  else if e = 'b' then some '\x08'
  else if e = 'f' then some '\x0c'
  else if e = 'n' then some '\n'
  else if e = 'r' then some '\r'
  else if e = 't' then some '\t'
  else none

/-- Body of a JSON string literal after the opening quote: returns the
decoded code points and the input after the closing quote.  Unescaped
control characters are rejected, as in strict-mode `json.loads`; a
`\uXXXX` escape denoting an invalid scalar (a lone surrogate) is
rejected, which is the one place this model is stricter than CPython. -/
def parseStringBody : List Char → Option (List Char × List Char)
  | [] => none
  | c :: rest =>
    if c = '"' then some ([], rest)
    else if c = '\\' then
      match rest with
      | [] => none
      | e :: rest1 =>
        if e = 'u' then
          match rest1 with
          | h1 :: h2 :: h3 :: h4 :: rest2 =>
            match hexVal h1, hexVal h2, hexVal h3, hexVal h4 with
            | some a, some b, some cc, some d =>
              let n := ((a * 16 + b) * 16 + cc) * 16 + d
              if h : n.isValidChar then
                (parseStringBody rest2).map (fun p => (Char.ofNatAux n h :: p.1, p.2))
              else none
            | _, _, _, _ => none
          | _ => none
        else
          match escChar e with
          | some ec => (parseStringBody rest1).map (fun p => (ec :: p.1, p.2))
          | none => none
    else if c.toNat < 32 then none
    else (parseStringBody rest).map (fun p => (c :: p.1, p.2))

/-- Consume a run of decimal digits, returning their value, count and
the rest of the input. -/
def parseDigits : List Char → Nat → Nat → Nat × Nat × List Char
  | c :: cs, acc, cnt =>
    if c.isDigit then parseDigits cs (acc * 10 + (c.toNat - 48)) (cnt + 1)
    else (acc, cnt, c :: cs)
  | [], acc, cnt => (acc, cnt, [])

/-- Drop a run of decimal digits, counting them. -/
def dropDigits : List Char → Nat → Nat × List Char
  | c :: cs, cnt => if c.isDigit then dropDigits cs (cnt + 1) else (cnt, c :: cs)
  | [], cnt => (cnt, [])

/-- Parse the fraction/exponent tail of a JSON number, returning the
consumed count so the raw lexeme can be recovered.  Returns `none` when
no fraction or exponent is present (the number is an integer). -/
def parseFracExp (cs : List Char) : Option (Nat × List Char) :=
  match cs with
  | '.' :: cs1 =>
    let (cnt, cs2) := dropDigits cs1 0
    if cnt = 0 then none
    else match cs2 with
      | 'e' :: cs3 => (parseExpTail cs3).map (fun p => (1 + cnt + 1 + p.1, p.2))
      | 'E' :: cs3 => (parseExpTail cs3).map (fun p => (1 + cnt + 1 + p.1, p.2))
      | _ => some (1 + cnt, cs2)
  | 'e' :: cs1 => (parseExpTail cs1).map (fun p => (1 + p.1, p.2))
  | 'E' :: cs1 => (parseExpTail cs1).map (fun p => (1 + p.1, p.2))
  | _ => none
where
  /-- After the `e`: optional sign then at least one digit. -/
  parseExpTail (cs : List Char) : Option (Nat × List Char) :=
    match cs with
    | '+' :: cs1 =>
      let (cnt, cs2) := dropDigits cs1 0
      if cnt = 0 then none else some (1 + cnt, cs2)
    | '-' :: cs1 =>
      let (cnt, cs2) := dropDigits cs1 0
      if cnt = 0 then none else some (1 + cnt, cs2)
    | _ =>
      let (cnt, cs2) := dropDigits cs 0
      if cnt = 0 then none else some (cnt, cs2)

/-- Assemble a parsed JSON number once its integer part is known:
`cs` is the full number text, `v` the integer value, `intLen` its digit
count.  A fraction or exponent turns the result into a raw lexeme. -/
def finishNumber (cs : List Char) (neg : Bool) (v : Nat) (intLen : Nat)
    (cs2 : List Char) : Option (Json × List Char) :=
  match parseFracExp cs2 with
  | some (cnt, cs3) =>
    let total := (if neg then 1 else 0) + intLen + cnt
    some (.flt (String.mk (cs.take total)), cs3)
  | none => some (.num (if neg then -(v : Int) else (v : Int)), cs2)

/-- Parse a JSON number per the RFC 8259 grammar enforced by
`json.loads`: optional minus, integer part without leading zeros,
optional fraction/exponent.  Integers produce `Json.num`; a number with
a fraction or exponent keeps its raw lexeme in `Json.flt`. -/
def parseNumber (cs : List Char) : Option (Json × List Char) :=
  let (neg, cs1) := match cs with
    | '-' :: rest => (true, rest)
    | _ => (false, cs)
  match cs1 with
  | '0' :: cs2 =>
    match cs2 with
    | c :: _ =>
      if c.isDigit then none
      else finishNumber cs neg 0 1 cs2
    | [] => finishNumber cs neg 0 1 []
  | c :: _ =>
    if c.isDigit then
      let (v, cnt, cs2) := parseDigits cs1 0 0
      finishNumber cs neg v cnt cs2
    else none
  | [] => none

/-- Insert into an embedded dict: a duplicate key keeps its position and
takes the new value, as CPython dicts do. -/
def objInsert : List (String × Json) → String → Json → List (String × Json)
  | [], k, v => [(k, v)]
  | (k', v') :: rest, k, v =>
    if k' = k then (k', v) :: rest else (k', v') :: objInsert rest k v

mutual

/-- Parse one JSON value (leading whitespace allowed), fuelled to make
the nested recursion evidently total; every recursive call consumes at
least one character, so fuel `length + 1` never runs out. -/
def parseValue : Nat → List Char → Option (Json × List Char)
  | 0, _ => none
  | fuel + 1, cs =>
    match skipWs cs with
    | [] => none
    | c :: rest =>
      if c = Char.ofNat 123 then
        match skipWs rest with
        | d :: rest2 =>
          if d = Char.ofNat 125 then some (.obj [], rest2)
          else parseMembers fuel (d :: rest2) []
        | [] => none
      else if c = '[' then
        match skipWs rest with
        | ']' :: rest2 => some (.arr [], rest2)
        | rest2 => parseItems fuel rest2 []
      else if c = '"' then
        (parseStringBody rest).map (fun p => (.str (String.mk p.1), p.2))
      else if c = 't' then
        match rest with
        | 'r' :: 'u' :: 'e' :: rest2 => some (.bool true, rest2)
        | _ => none
      else if c = 'f' then
        match rest with
        | 'a' :: 'l' :: 's' :: 'e' :: rest2 => some (.bool false, rest2)
        | _ => none
      else if c = 'n' then
        match rest with
        | 'u' :: 'l' :: 'l' :: rest2 => some (.null, rest2)
        | _ => none
      else if c = '-' ∨ c.isDigit then parseNumber (c :: rest)
      else none

/-- Members of a JSON object after at least one is known to follow.
A duplicate key overwrites the earlier value in place, as in a Python
dict. -/
def parseMembers : Nat → List Char → List (String × Json) → Option (Json × List Char)
  | 0, _, _ => none
  | fuel + 1, cs, acc =>
    match cs with
    | '"' :: rest => do
      let (k, rest1) ← parseStringBody rest
      match skipWs rest1 with
      | ':' :: rest2 => do
        let (v, rest3) ← parseValue fuel rest2
        let acc2 := objInsert acc (String.mk k) v
        match skipWs rest3 with
        | ',' :: rest4 => parseMembers fuel (skipWs rest4) acc2
        | d :: rest4 =>
          if d = Char.ofNat 125 then some (.obj acc2, rest4) else none
        | [] => none
      | _ => none
    | _ => none

/-- Items of a JSON array after at least one is known to follow. -/
def parseItems : Nat → List Char → List Json → Option (Json × List Char)
  | 0, _, _ => none
  | fuel + 1, cs, acc => do
    let (v, rest) ← parseValue fuel cs
    match skipWs rest with
    | ',' :: rest2 => parseItems fuel rest2 (acc ++ [v])
    | ']' :: rest2 => some (.arr (acc ++ [v]), rest2)
    | _ => none

end

/-- Model of Python `json.loads` on a character list: one JSON value,
surrounding whitespace allowed, trailing non-whitespace rejected
(CPython raises `JSONDecodeError: Extra data`). -/
def jsonLoadsL (cs : List Char) : Option Json := do
  let (v, rest) ← parseValue (cs.length + 1) cs
  if (skipWs rest).isEmpty then some v else none

/-- Model of Python `json.loads` on a string. -/
def jsonLoads (s : String) : Option Json := jsonLoadsL s.toList

/-!
## String helpers mirroring the Python string operations used by the app

These are written over `List Char` so that every closed instance reduces
by `rfl`/`decide`; each models the CPython operation by code points.
-/

/-- Python `s.startswith(p)`. -/
def pyStartsWith (s p : String) : Bool := p.toList.isPrefixOf s.toList

/-- Python `s.endswith(p)`. -/
def pyEndsWith (s p : String) : Bool := decide (p.toList <:+ s.toList)

/-- Python `s[n:]` (drop by code point). -/
def pyDrop (s : String) (n : Nat) : String := String.mk (s.toList.drop n)

/-- Python `s.find(c)` for a single character: index of the first
occurrence, `None` here standing for CPython's `-1`. -/
def pyFindChar (s : String) (c : Char) : Option Nat :=
  s.toList.findIdx? (fun d => d = c)

/-- One fuelled step list for Python `s.split(sep)` with a non-empty
separator: split at every non-overlapping occurrence, left to right. -/
def pySplitGo (sep : List Char) : Nat → List Char → List Char → List (List Char)
  | 0, cs, cur => [cur.reverse ++ cs]
  | fuel + 1, cs, cur =>
    if sep.isPrefixOf cs ∧ sep ≠ [] then
      cur.reverse :: pySplitGo sep fuel (cs.drop sep.length) []
    else
      match cs with
      | [] => [cur.reverse]
      | c :: rest => pySplitGo sep fuel rest (c :: cur)

/-- Python `s.split(sep)` for a non-empty separator. -/
def pySplit (s sep : String) : List String :=
  (pySplitGo sep.toList (s.toList.length + 1) s.toList []).map String.mk

/-- One fuelled step list for Python `s.replace(pat, rep)` with a
non-empty pattern: replace every non-overlapping occurrence, left to
right. -/
def pyReplaceGo (pat rep : List Char) : Nat → List Char → List Char
  | 0, cs => cs
  | fuel + 1, cs =>
    if pat.isPrefixOf cs ∧ pat ≠ [] then
      rep ++ pyReplaceGo pat rep fuel (cs.drop pat.length)
    else
      match cs with
      | [] => []
      | c :: rest => c :: pyReplaceGo pat rep fuel rest

/-- Python `s.replace(pat, rep)` for a non-empty pattern. -/
def pyReplace (s pat rep : String) : String :=
  String.mk (pyReplaceGo pat.toList rep.toList (s.toList.length + 1) s.toList)

/-!
## The streaming-event reducer of `invoke_runtime_streaming`
(`examples/app.py`, lines 172-295)
-/

/-- One extracted citation: the dict
`\x7b"title": title, "url": url\x7d` built at `app.py:269`.  The code
stores whatever decoded values reach that line, so both fields are kept
as embedded Python values. -/
structure Source where
  title : Json
  url : Json

/-- Producer-side reducer state: `full_response` and `tool_in_progress`
of `invoke_runtime_streaming`. -/
structure RState where
  full_response : String
  tool_in_progress : Bool
deriving DecidableEq

/-- A notification put on the producer/consumer queue: the tuples
`("text", s)`, `("tool", s)`, `("tool_done", "")`, `("sources", l)`,
`("done", s)` and `("error", s)`. -/
inductive Msg where
  | text : String → Msg
  | tool : String → Msg
  | tool_done : Msg
  | sources : List Source → Msg
  | done : String → Msg
  | error : String → Msg

/-- `tool_name.split("___")[-1] if "___" in tool_name else tool_name`
(`app.py:216`). -/
def cleanToolName (s : String) : String :=
  if "___".toList <:+: s.toList then (pySplit s "___").getLastD s else s

/-- Loop body for one entry of `valyu_data.get('results', [])[:10]`
(`app.py:265-269`): the outer `some` is absence of an exception, the
inner option is whether the entry passes the `if url:` test and is
appended. -/
def stepEntry (result : Json) : Option (Option Source) := do
  let srcD ← pyGet result "source" (.str "")
  let url ← pyGet result "url" srcD
  let t0 ← pyGet result "title" url
  let title ← pySlice t0 60
  pure (if url.truthy then some ⟨title, url⟩ else none)

/-- The `for result in ...` accumulation loop over the sliced results
(`app.py:264-269`). -/
def extractLoop : List Json → List Source → Option (List Source)
  | [], acc => some acc
  | r :: rest, acc => do
    match ← stepEntry r with
    | some src => extractLoop rest (acc ++ [src])
    | none => extractLoop rest acc

/-- Source extraction from an already-decoded payload
(`app.py:264-269`): `valyu_data.get('results', [])[:10]` then the
accumulation loop. -/
def extractFromData (valyu_data : Json) : Option (List Source) := do
  let resultsJ ← pyGet valyu_data "results" (.arr [])
  let sliced ← pySlice resultsJ 10
  let items ← pyIter sliced
  extractLoop items []

/-- Source extraction from the embedded text of one tool-result content
sub-block (`app.py:259-273`): find the first brace, `json.loads` from
there, walk the results; the enclosing bare `except: pass` turns every
failure into an empty extraction. -/
def extract_sources (text : String) : List Source :=
  match pyFindChar text (Char.ofNat 123) with
  | none => []
  | some i => ((jsonLoadsL (text.toList.drop i)).bind extractFromData).getD []

/-- The `try:`-protected extraction for one content sub-block that has a
`text` member (`app.py:257-273`), including the `if sources:` guard on
the queue put. -/
def tryExtract (content : Json) : List Msg :=
  match pyIndex content "text" with
  | some (.str t) =>
    let l := extract_sources t
    if l.isEmpty then [] else [.sources l]
  | _ => []

/-- The `for content in tool_result.get('content', [])` loop
(`app.py:255-273`). -/
def processContents : List Json → Option (List Msg)
  | [] => some []
  | c :: rest => do
    let hasT ← pyContains c "text"
    let ms := if hasT then tryExtract c else []
    let later ← processContents rest
    pure (ms ++ later)

/-- One `block` of `msg['content']` (`app.py:246-273`): adopt a final
text when nothing was accumulated, then mine a successful tool result
for sources. -/
def processBlock (st : RState) (block : Json) : Option (RState × List Msg) := do
  let hasText ← pyContains block "text"
  let st1 ←
    if hasText then
      if st.full_response = "" then do
        let tJ ← pyIndex block "text"
        match tJ.asStr with
        | some t => pure { st with full_response := t }
        | none => none
      else pure st
    else pure st
  let hasTR ← pyContains block "toolResult"
  if hasTR then
    let tr ← pyIndex block "toolResult"
    let statusJ ← pyGet tr "status" .null
    if statusJ.asStr = some "success" then
      let contentJ ← pyGet tr "content" (.arr [])
      let contents ← pyIter contentJ
      let msgs ← processContents contents
      pure (st1, msgs)
    else pure (st1, [])
  else pure (st1, [])

/-- The `for block in msg['content']` loop (`app.py:246-273`). -/
def processBlocks (st : RState) : List Json → Option (RState × List Msg)
  | [] => some (st, [])
  | b :: rest => do
    let (st1, ms1) ← processBlock st b
    let (st2, ms2) ← processBlocks st1 rest
    pure (st2, ms1 ++ ms2)

/-- The `if 'event' in event_data:` dispatch (`app.py:197-233`) applied
to the decoded `event` value. -/
def handleEvent (st : RState) (event : Json) : Option (RState × List Msg) := do
  let hasCBD ← pyContains event "contentBlockDelta"
  if hasCBD then
    let cbd ← pyIndex event "contentBlockDelta"
    let delta ← pyGet cbd "delta" (.obj [])
    let textJ ← pyGet delta "text" (.str "")
    if textJ.truthy then
      match textJ.asStr with
      | some t =>
        let pre : List Msg := if st.tool_in_progress then [.tool_done] else []
        pure ({ full_response := st.full_response ++ t, tool_in_progress := false },
          pre ++ [.text t])
      | none => none
    else pure (st, [])
  else
    let hasCBS ← pyContains event "contentBlockStart"
    if hasCBS then
      let cbs ← pyIndex event "contentBlockStart"
      let start ← pyGet cbs "start" (.obj [])
      let tu ← pyGet start "toolUse" (.obj [])
      let nameJ ← pyGet tu "name" (.str "")
      if nameJ.truthy then
        match nameJ.asStr with
        | some name =>
          pure ({ st with tool_in_progress := true },
            [.tool ("Using tool: " ++ cleanToolName name)])
        | none => none
      else if st.full_response ≠ "" ∧ ¬ pyEndsWith st.full_response "\n" then
        pure ({ st with full_response := st.full_response ++ "\n\n" }, [.text "\n\n"])
      else pure (st, [])
    else
      let hasMS ← pyContains event "messageStart"
      if hasMS then
        if st.full_response ≠ "" ∧ ¬ pyEndsWith st.full_response "\n" then
          pure ({ st with full_response := st.full_response ++ "\n\n" }, [.text "\n\n"])
        else pure (st, [])
      else
        let hasCBStop ← pyContains event "contentBlockStop"
        if hasCBStop then pure (st, [])
        else
          let hasMStop ← pyContains event "messageStop"
          if hasMStop then
            if st.tool_in_progress then
              pure ({ st with tool_in_progress := false }, [.tool_done])
            else pure (st, [])
          else pure (st, [])

/-- The `if 'current_tool_use' in event_data:` section
(`app.py:236-240`). -/
def currentToolSection (st : RState) (ed : Json) : Option (RState × List Msg) := do
  let hasCTU ← pyContains ed "current_tool_use"
  if hasCTU then
    let ctu ← pyIndex ed "current_tool_use"
    let nameJ ← pyGet ctu "name" (.str "")
    if nameJ.truthy then
      match nameJ.asStr with
      | some name => pure (st, [.tool ("Using tool: " ++ cleanToolName name)])
      | none => none
    else pure (st, [])
  else pure (st, [])

/-- The `if 'message' in event_data:` section (`app.py:243-273`). -/
def messageSection (st : RState) (ed : Json) : Option (RState × List Msg) := do
  let hasMsg ← pyContains ed "message"
  if hasMsg then
    let msg ← pyIndex ed "message"
    let hasContent ← pyContains msg "content"
    if hasContent then
      let contentJ ← pyIndex msg "content"
      let blocks ← pyIter contentJ
      processBlocks st blocks
    else pure (st, [])
  else pure (st, [])

/-- Reduce one decoded, dict-shaped event: the three sequential sections
of the loop body (`app.py:197-273`). -/
def reduceEvent (st : RState) (ed : Json) : Option (RState × List Msg) := do
  let (st1, ms1) ←
    (do
      let hasEv ← pyContains ed "event"
      if hasEv then
        let ev ← pyIndex ed "event"
        handleEvent st ev
      else pure (st, []))
  let (st2, ms2) ← currentToolSection st1 ed
  let (st3, ms3) ← messageSection st2 ed
  pure (st3, ms1 ++ ms2 ++ ms3)

/-- Strip the SSE `data: ` prefix when present (`app.py:187-188`). -/
def stripSSE (s : String) : String :=
  if pyStartsWith s "data: " then pyDrop s 6 else s

/-- Reduce one raw line of the streaming body (`app.py:179-277`): an
empty line, a line that fails JSON decoding (`json.JSONDecodeError` is
caught and the loop continues) or a line decoding to a non-dict are
no-ops.  `none` models an exception other than `json.JSONDecodeError`
escaping to the outer transport-failure handler. -/
def reduceLine (st : RState) (line : String) : Option (RState × List Msg) :=
  if line = "" then some (st, [])
  else
    match jsonLoads (stripSSE line) with
    | none => some (st, [])
    | some ed => if ed.isObj then reduceEvent st ed else some (st, [])

/-- Fold the reducer over a list of raw lines, concatenating the
emitted notifications. -/
def runLines (st : RState) : List String → Option (RState × List Msg)
  | [] => some (st, [])
  | l :: rest => do
    let (st1, ms1) ← reduceLine st l
    let (st2, ms2) ← runLines st1 rest
    pure (st2, ms1 ++ ms2)

/-- Fold the reducer over a list of already-decoded dict events. -/
def runEvents (st : RState) : List Json → Option (RState × List Msg)
  | [] => some (st, [])
  | e :: rest => do
    let (st1, ms1) ← reduceEvent st e
    let (st2, ms2) ← runEvents st1 rest
    pure (st2, ms1 ++ ms2)

/-- Reducer state at the start of a query. -/
def initRState : RState := ⟨"", false⟩

/-!
## The consumer loop of `main` (`examples/app.py`, lines 1150-1181)
-/

/-- Consumer-side state of the drain loop in `main`. -/
structure CState where
  full_response : String
  tools_used : List String
  sources_found : List Source

/-- Handle one dequeued `(msg_type, msg_data)` tuple
(`app.py:1156-1178`); the boolean is whether the loop `break`s. -/
def consumeMsg (st : CState) (m : Msg) : CState × Bool :=
  match m with
  | .text s => ({ st with full_response := st.full_response ++ s }, false)
  | .tool s =>
    let name := pyReplace s "Using tool: " ""
    (if st.tools_used.contains name then st
     else { st with tools_used := st.tools_used ++ [name] }, false)
  | .tool_done => (st, false)
  | .sources l => ({ st with sources_found := st.sources_found ++ l }, false)
  | .done s =>
    (if st.full_response = "" then { st with full_response := s } else st, true)
  | .error s => ({ st with full_response := "Error: " ++ s }, true)

/-- Drain a list of queued notifications, stopping at the first
terminal one. -/
def consumeAll (st : CState) : List Msg → CState
  | [] => st
  | m :: rest =>
    let (st1, brk) := consumeMsg st m
    if brk then st1 else consumeAll st1 rest

/-- Consumer state at the start of a query. -/
def initCState : CState := ⟨"", [], []⟩

/-!
## The transport-failure fallback (`examples/app.py`, lines 283-295)
-/

/-- The trailing note appended to a substantial partial response. -/
def incompleteNote : String :=
  "\n\n---\n*Response may be incomplete due to connection issue.*"

/-- The generic user-facing error string of the last-resort branch. -/
def connectionFailedMsg : String :=
  "Error: Connection failed. Please try again."

/-- The `except Exception` handler of `invoke_runtime_streaming`
(`app.py:283-295`): `full_response` is the text accumulated when the
transport failed; `cliResult` is the outcome of the non-streaming CLI
fallback (`none` when it, too, raises).  Returns the notifications put
on the queue. -/
def handleStreamFailure (full_response : String) (cliResult : Option String) : List Msg :=
  if full_response ≠ "" ∧ full_response.length > 100 then
    [.done (full_response ++ incompleteNote)]
  else
    .tool "Reconnecting..." ::
      (match cliResult with
       | some r => [.done r]
       | none => [.done connectionFailedMsg])

/-- Whether a notification is a `("done", _)` tuple. -/
def Msg.isDone : Msg → Bool
  | .done _ => true
  | _ => false

/-- Whether a notification is a `("tool", _)` tuple. -/
def Msg.isTool : Msg → Bool
  | .tool _ => true
  | _ => false

/-!
## The gateway target-status polling loops
(`valyu_agentcore/gateway.py`, lines 181-193 and 349-363)

A status-poll response is embedded as the key/value list of the boto3
response dict; the environment is a function giving the response to the
i-th `get_gateway_target` call.
-/

/-- Attempt cap of both polling loops: `for _ in range(12)`. -/
def POLL_ATTEMPTS : Nat := 12

/-- Fixed sleep before each poll: `time.sleep(10)`. -/
def POLL_INTERVAL_SECONDS : Nat := 10

/-- `status_response.get("status", "UNKNOWN")`. -/
def statusField (resp : List (String × Json)) : Json :=
  (((resp.find? (fun p => p.1 = "status")).map (fun p => p.2)).getD (.str "UNKNOWN"))

/-- Python `x == s` for a string literal `s`: false (no error) when `x`
is not a string. -/
def isStatus (j : Json) (s : String) : Bool :=
  match j with
  | .str t => t = s
  | _ => false

/-- Outcome of the polling loop: `READY` observed at attempt `i`
(0-based), `FAILED` observed at attempt `i` (the `raise`), or the cap
exhausted with neither. -/
inductive PollOutcome where
  | ready : Nat → PollOutcome
  | failed : Nat → PollOutcome
  | exhausted : PollOutcome
deriving DecidableEq

/-- The polling loop from attempt `i` with the given number of attempts
remaining (`gateway.py:181-193` and `349-363`: sleep, fetch, break on
`READY`, raise on `FAILED`, otherwise continue). -/
def pollTargetFrom (resp : Nat → List (String × Json)) (i : Nat) : Nat → PollOutcome
  | 0 => .exhausted
  | n + 1 =>
    let s := statusField (resp i)
    if isStatus s "READY" then .ready i
    else if isStatus s "FAILED" then .failed i
    else pollTargetFrom resp (i + 1) n

/-- The full 12-attempt polling loop. -/
def pollTarget (resp : Nat → List (String × Json)) : PollOutcome :=
  pollTargetFrom resp 0 POLL_ATTEMPTS

/-- Seconds spent in `time.sleep` by the loop: one fixed interval
before every observation actually made. -/
def pollSleepSeconds (resp : Nat → List (String × Json)) : Nat :=
  POLL_INTERVAL_SECONDS *
    (match pollTarget resp with
     | .ready i => i + 1
     | .failed i => i + 1
     | .exhausted => POLL_ATTEMPTS)

/-- The dict returned by `add_valyu_target` (`gateway.py:367-372`). -/
structure AddTargetResult where
  target_id : String
  gateway_id : String
  region : String
  status : String
deriving DecidableEq

/-- `add_valyu_target` from the point where the target was created
(`gateway.py:344-372`): poll, raise `RuntimeError` with the
`statusReasons` payload on `FAILED`, and otherwise — on `READY` or on
silent cap exhaustion alike — return the literal result dict. -/
def add_valyu_target (gateway_id target_id region : String)
    (resp : Nat → List (String × Json)) : Except Json AddTargetResult :=
  match pollTarget resp with
  | .failed i =>
    .error ((((resp i).find? (fun p => p.1 = "statusReasons")).map (fun p => p.2)).getD (.arr []))
  | _ => .ok ⟨target_id, gateway_id, region, "READY"⟩

/-- The polling phase of `setup_valyu_gateway` (`gateway.py:179-193`):
poll, raise `RuntimeError` carrying the whole status response on
`FAILED`, and otherwise fall through to the rest of the setup. -/
def setup_poll_phase (resp : Nat → List (String × Json)) : Except Json Unit :=
  match pollTarget resp with
  | .failed i => .error (.obj (resp i))
  | _ => .ok ()

/-!
## Concrete scenario data and structural predicates used by the theorems
-/

/-- Embedded tool-result text: non-JSON prefix, a one-result JSON
object, then a non-empty non-JSON suffix. -/
def resultTextWithSuffix : String :=
  "prefix \x7b\"results\":[\x7b\"url\":\"https://a.com\",\"title\":\"A\"\x7d]\x7d suffix"

/-- The same embedded text without the trailing suffix. -/
def resultTextNoSuffix : String :=
  "prefix \x7b\"results\":[\x7b\"url\":\"https://a.com\",\"title\":\"A\"\x7d]\x7d"

/-- Embedded tool-result text whose two result entries share a URL. -/
def resultTextDupUrl : String :=
  "\x7b\"results\":[\x7b\"url\":\"https://a.com\",\"title\":\"A\"\x7d,\x7b\"url\":\"https://a.com\",\"title\":\"B\"\x7d]\x7d"

/-- Decoded event: `contentBlockStart` carrying tool name
`ns___toolA`. -/
def toolStartEv : Json :=
  .obj [("event", .obj [("contentBlockStart",
    .obj [("start", .obj [("toolUse", .obj [("name", .str "ns___toolA")])])])])]

/-- Decoded event: `contentBlockDelta` carrying the text `t`. -/
def textDeltaEv (t : String) : Json :=
  .obj [("event", .obj [("contentBlockDelta", .obj [("delta", .obj [("text", .str t)])])])]

/-- Decoded event: a `messageStart`. -/
def msgStartEv : Json :=
  .obj [("event", .obj [("messageStart", .obj [("role", .str "assistant")])])]

/-- Decoded event: a `contentBlockStart` carrying no tool name. -/
def cbStartNoToolEv : Json :=
  .obj [("event", .obj [("contentBlockStart", .obj [("start", .obj [])])])]

/-- A result entry is a dict whose `url` member is a non-empty string
and whose `title` member, when present, is a string. -/
def entryUrlOk (r : Json) : Bool :=
  match r with
  | .obj kvs =>
    (match kvs.find? (fun p => p.1 = "url") with
     | some (_, .str u) => decide (u ≠ "")
     | _ => false)
    &&
    (match kvs.find? (fun p => p.1 = "title") with
     | some (_, .str _) => true
     | none => true
     | _ => false)
  | _ => false

/-- A result entry that lacks a URL: a dict whose `url` and `source`
members are absent or empty strings, and whose `title` member, when
present, is a string. -/
def entryLacksUrl (r : Json) : Bool :=
  match r with
  | .obj kvs =>
    (match kvs.find? (fun p => p.1 = "url") with
     | some (_, .str u) => decide (u = "")
     | none => true
     | _ => false)
    &&
    (match kvs.find? (fun p => p.1 = "source") with
     | some (_, .str u) => decide (u = "")
     | none => true
     | _ => false)
    &&
    (match kvs.find? (fun p => p.1 = "title") with
     | some (_, .str _) => true
     | none => true
     | _ => false)
  | _ => false

/-- Eleven result entries, each with a distinct URL and a title. -/
def elevenResults : List Json :=
  (List.range 11).map (fun i =>
    .obj [("url", .str ("https://u" ++ toString i)), ("title", .str ("T" ++ toString i))])

/-- A status trace that reports `CREATING` forever. -/
def creatingResp : Nat → List (String × Json) := fun _ => [("status", Json.str "CREATING")]

/-- A status trace that reports `FAILED` on the fourth attempt. -/
def failThirdResp : Nat → List (String × Json) := fun i =>
  if i = 3 then [("status", Json.str "FAILED"), ("statusReasons", Json.arr [Json.str "boom"])]
  else [("status", Json.str "CREATING")]

/-- A 101-character accumulated response. -/
def longResponse : String := String.mk (List.replicate 101 'x')

/-- Two result entries that share a URL. -/
def dupEntries : List Json :=
  [Json.obj [("url", Json.str "https://a.com"), ("title", Json.str "A")],
   Json.obj [("url", Json.str "https://a.com"), ("title", Json.str "B")]]

/-- The `source`-fallback default read by one result entry:
`result.get('source', '')`. -/
def srcVal (kvs : List (String × Json)) : Json :=
  ((kvs.find? (fun p => p.1 = "source")).map (fun p => p.2)).getD (Json.str "")

/-- The URL read by one result entry:
`result.get('url', result.get('source', ''))`. -/
def urlVal (kvs : List (String × Json)) : Json :=
  ((kvs.find? (fun p => p.1 = "url")).map (fun p => p.2)).getD (srcVal kvs)

/-- The pre-truncation title read by one result entry:
`result.get('title', url)`. -/
def titleVal (kvs : List (String × Json)) : Json :=
  ((kvs.find? (fun p => p.1 = "title")).map (fun p => p.2)).getD (urlVal kvs)

/-- Whether an embedded call raised (ended in an exception). -/
def raised {α β : Type} : Except α β → Bool
  | .error _ => true
  | .ok _ => false

/-!
## Helper lemmas
-/

/-- When every entry is processable, the accumulation loop is the
filterMap of the per-entry step: entries are appended in order, with no
inspection of earlier output (in particular no URL de-duplication). -/
theorem extractLoop_eq_filterMap (items : List Json) (acc : List Source)
    (h : ∀ r ∈ items, (stepEntry r).isSome) :
    extractLoop items acc = some (acc ++ items.filterMap (fun r => (stepEntry r).bind id)) := by
  induction items generalizing acc with
  | nil => simp [extractLoop]
  | cons r rest ih =>
    have hr : (stepEntry r).isSome := h r (List.mem_cons_self r rest)
    obtain ⟨v, hv⟩ := Option.isSome_iff_exists.mp hr
    have hrest : ∀ x ∈ rest, (stepEntry x).isSome := fun x hx => h x (List.mem_cons_of_mem _ hx)
    cases v with
    | some src => simp [extractLoop, hv, ih _ hrest, List.filterMap_cons]
    | none => simp [extractLoop, hv, ih _ hrest, List.filterMap_cons]

/-- Extraction from a decoded payload with a `results` list: slice to
the first 10 entries, then the loop. -/
theorem extractFromData_results (rs : List Json)
    (h : ∀ r ∈ rs.take 10, (stepEntry r).isSome) :
    extractFromData (Json.obj [("results", Json.arr rs)]) =
      some ((rs.take 10).filterMap (fun r => (stepEntry r).bind id)) := by
  simp [extractFromData, pyGet, pySlice, pyIter, extractLoop_eq_filterMap _ _ h]

/-- The per-entry step on a dict, written through the three field
accessors. -/
theorem stepEntry_obj (kvs : List (String × Json)) :
    stepEntry (Json.obj kvs) =
      (pySlice (titleVal kvs) 60).map
        (fun title => if (urlVal kvs).truthy then some ⟨title, urlVal kvs⟩ else none) := by
  simp [stepEntry, pyGet, srcVal, urlVal, titleVal, Option.map_eq_bind]

/-- An entry with a non-empty string URL neither raises nor is
skipped. -/
theorem stepEntry_of_entryUrlOk (r : Json) (h : entryUrlOk r = true) :
    (stepEntry r).isSome ∧ ((stepEntry r).bind id).isSome := by
  cases r with
  | null => simp [entryUrlOk] at h
  | bool b => simp [entryUrlOk] at h
  | num n => simp [entryUrlOk] at h
  | flt f => simp [entryUrlOk] at h
  | str s => simp [entryUrlOk] at h
  | arr xs => simp [entryUrlOk] at h
  | obj kvs =>
    rw [entryUrlOk, Bool.and_eq_true] at h
    obtain ⟨hu, ht⟩ := h
    cases hfu : kvs.find? (fun p => p.1 = "url") with
    | none => rw [hfu] at hu; simp at hu
    | some kv =>
      obtain ⟨k, v⟩ := kv
      rw [hfu] at hu
      cases v with
      | null => simp at hu
      | bool b => simp at hu
      | num n => simp at hu
      | flt f => simp at hu
      | arr xs => simp at hu
      | obj o => simp at hu
      | str u =>
        have hune : u ≠ "" := of_decide_eq_true hu
        cases hft : kvs.find? (fun p => p.1 = "title") with
        | none =>
          rw [stepEntry_obj]
          simp [titleVal, urlVal, hfu, hft, pySlice, Json.truthy, hune]
        | some kv2 =>
          obtain ⟨k2, v2⟩ := kv2
          rw [hft] at ht
          cases v2 with
          | null => simp at ht
          | bool b => simp at ht
          | num n => simp at ht
          | flt f => simp at ht
          | arr xs => simp at ht
          | obj o => simp at ht
          | str tt =>
            rw [stepEntry_obj]
            simp [titleVal, urlVal, hfu, hft, pySlice, Json.truthy, hune]

/-- An entry whose URL and source fallback are both absent or empty is
skipped, not raised on. -/
theorem stepEntry_of_entryLacksUrl (r : Json) (h : entryLacksUrl r = true) :
    stepEntry r = some none := by
  cases r with
  | null => simp [entryLacksUrl] at h
  | bool b => simp [entryLacksUrl] at h
  | num n => simp [entryLacksUrl] at h
  | flt f => simp [entryLacksUrl] at h
  | str s => simp [entryLacksUrl] at h
  | arr xs => simp [entryLacksUrl] at h
  | obj kvs =>
    rw [entryLacksUrl, Bool.and_eq_true, Bool.and_eq_true] at h
    obtain ⟨⟨hu, hs⟩, ht⟩ := h
    have hurl : urlVal kvs = Json.str "" := by
      have hsrc : srcVal kvs = Json.str "" := by
        cases hfs : kvs.find? (fun p => p.1 = "source") with
        | none => simp [srcVal, hfs]
        | some kv =>
          obtain ⟨k, v⟩ := kv
          rw [hfs] at hs
          cases v with
          | null => simp at hs
          | bool b => simp at hs
          | num n => simp at hs
          | flt f => simp at hs
          | arr xs => simp at hs
          | obj o => simp at hs
          | str u => simp [srcVal, hfs, of_decide_eq_true hs]
      cases hfu : kvs.find? (fun p => p.1 = "url") with
      | none => simp [urlVal, hfu, hsrc]
      | some kv =>
        obtain ⟨k, v⟩ := kv
        rw [hfu] at hu
        cases v with
        | null => simp at hu
        | bool b => simp at hu
        | num n => simp at hu
        | flt f => simp at hu
        | arr xs => simp at hu
        | obj o => simp at hu
        | str u => simp [urlVal, hfu, of_decide_eq_true hu]
    rw [stepEntry_obj, hurl]
    cases hft : kvs.find? (fun p => p.1 = "title") with
    | none => simp [titleVal, hft, hurl, pySlice, Json.truthy]
    | some kv2 =>
      obtain ⟨k2, v2⟩ := kv2
      rw [hft] at ht
      cases v2 with
      | null => simp at ht
      | bool b => simp at ht
      | num n => simp at ht
      | flt f => simp at ht
      | arr xs => simp at ht
      | obj o => simp at ht
      | str tt => simp [titleVal, hft, hurl, pySlice, Json.truthy]

/-- A string produced by the 60-slice has at most 60 code points. -/
theorem pySlice60_title_len (T j : Json) (h : pySlice T 60 = some j)
    (t : String) (ht : j = Json.str t) : t.length ≤ 60 := by
  cases T with
  | str u =>
    simp [pySlice] at h
    rw [← h] at ht
    have : t = String.mk (u.toList.take 60) := (Json.str.inj ht).symm
    rw [this]
    exact List.length_take_le 60 u.toList
  | arr xs =>
    simp [pySlice] at h
    rw [← h] at ht
    exact absurd ht (by simp)
  | null => simp [pySlice] at h
  | bool b => simp [pySlice] at h
  | num n => simp [pySlice] at h
  | flt f => simp [pySlice] at h
  | obj o => simp [pySlice] at h

/-- Every emitted source's title, when a string, was truncated to at
most 60 code points. -/
theorem stepEntry_title_len (r : Json) (s : Source) (h : stepEntry r = some (some s))
    (t : String) (ht : s.title = Json.str t) : t.length ≤ 60 := by
  cases r with
  | null => simp [stepEntry, pyGet] at h
  | bool b => simp [stepEntry, pyGet] at h
  | num n => simp [stepEntry, pyGet] at h
  | flt f => simp [stepEntry, pyGet] at h
  | str u => simp [stepEntry, pyGet] at h
  | arr xs => simp [stepEntry, pyGet] at h
  | obj kvs =>
    rw [stepEntry_obj] at h
    obtain ⟨title, hT, hf⟩ := Option.map_eq_some'.mp h
    by_cases hu : (urlVal kvs).truthy
    · rw [if_pos hu] at hf
      have hst : s = ⟨title, urlVal kvs⟩ := (Option.some.inj hf).symm
      exact pySlice60_title_len (titleVal kvs) title hT t (by rw [← ht, hst])
    · rw [if_neg hu] at hf
      exact absurd hf (by simp)

/-- The title bound lifts through the accumulation loop. -/
theorem extractLoop_title_len (items : List Json) :
    ∀ (acc l : List Source), extractLoop items acc = some l →
    (∀ s ∈ acc, ∀ t, s.title = Json.str t → t.length ≤ 60) →
    ∀ s ∈ l, ∀ t, s.title = Json.str t → t.length ≤ 60 := by
  induction items with
  | nil =>
    intro acc l h hacc
    simp [extractLoop] at h
    rw [← h]
    exact hacc
  | cons r rest ih =>
    intro acc l h hacc
    cases hse : stepEntry r with
    | none => rw [extractLoop, hse] at h; simp at h
    | some v =>
      cases v with
      | some src =>
        rw [extractLoop, hse] at h
        simp at h
        refine ih _ _ h ?_
        intro s hs t ht
        rcases List.mem_append.mp hs with hs1 | hs2
        · exact hacc s hs1 t ht
        · have : s = src := by simpa using hs2
          exact stepEntry_title_len r src hse t (this ▸ ht)
      | none =>
        rw [extractLoop, hse] at h
        simp at h
        exact ih _ _ h hacc

/-- A filterMap by an everywhere-defined function keeps the length. -/
theorem length_filterMap_of_isSome {α β : Type} (f : α → Option β) :
    ∀ l : List α, (∀ x ∈ l, (f x).isSome) → (l.filterMap f).length = l.length := by
  intro l
  induction l with
  | nil => simp
  | cons x xs ih =>
    intro h
    obtain ⟨v, hv⟩ := Option.isSome_iff_exists.mp (h x (List.mem_cons_self x xs))
    simp [List.filterMap_cons, hv, ih (fun y hy => h y (List.mem_cons_of_mem _ hy))]

/-- Effect of a `messageStart` event on any reducer state. -/
theorem reduceEvent_msgStart (st : RState) :
    reduceEvent st msgStartEv =
      some (if st.full_response ≠ "" ∧ ¬ pyEndsWith st.full_response "\n"
            then ({ st with full_response := st.full_response ++ "\n\n" }, [Msg.text "\n\n"])
            else (st, [])) := by
  by_cases h1 : st.full_response = ""
  · simp [reduceEvent, handleEvent, currentToolSection, messageSection, msgStartEv,
      pyContains, pyIndex, pyGet, h1]
  · by_cases h2 : pyEndsWith st.full_response "\n" <;>
      simp [reduceEvent, handleEvent, currentToolSection, messageSection, msgStartEv,
        pyContains, pyIndex, pyGet, h1, h2]

/-- Effect of a tool-name-free `contentBlockStart` event on any reducer
state. -/
theorem reduceEvent_cbStartNoTool (st : RState) :
    reduceEvent st cbStartNoToolEv =
      some (if st.full_response ≠ "" ∧ ¬ pyEndsWith st.full_response "\n"
            then ({ st with full_response := st.full_response ++ "\n\n" }, [Msg.text "\n\n"])
            else (st, [])) := by
  by_cases h1 : st.full_response = ""
  · simp [reduceEvent, handleEvent, currentToolSection, messageSection, cbStartNoToolEv,
      pyContains, pyIndex, pyGet, Json.truthy, h1]
  · by_cases h2 : pyEndsWith st.full_response "\n" <;>
      simp [reduceEvent, handleEvent, currentToolSection, messageSection, cbStartNoToolEv,
        pyContains, pyIndex, pyGet, Json.truthy, h1, h2]

/-- Effect of the `ns___toolA` tool-start event on any reducer state. -/
theorem reduceEvent_toolStart (st : RState) :
    reduceEvent st toolStartEv =
      some ({ st with tool_in_progress := true }, [Msg.tool "Using tool: toolA"]) := rfl

/-- Effect of a non-empty text delta on any reducer state. -/
theorem reduceEvent_textDelta (st : RState) (t : String) (ht : t ≠ "") :
    reduceEvent st (textDeltaEv t) =
      some (⟨st.full_response ++ t, false⟩,
        (if st.tool_in_progress then [Msg.tool_done] else []) ++ [Msg.text t]) := by
  simp [reduceEvent, handleEvent, currentToolSection, messageSection, textDeltaEv,
    pyContains, pyIndex, pyGet, Json.truthy, Json.asStr, ht]

/-- The consumer strips the `Using tool: ` prefix back off. -/
theorem pyReplace_toolA : pyReplace "Using tool: toolA" "Using tool: " "" = "toolA" := rfl

/-- The polling loop reads only the observations inside its window. -/
theorem pollTargetFrom_congr (resp resp' : Nat → List (String × Json)) :
    ∀ (n i : Nat), (∀ k, i ≤ k → k < i + n → resp k = resp' k) →
      pollTargetFrom resp i n = pollTargetFrom resp' i n := by
  intro n
  induction n with
  | zero => intro i h; rfl
  | succ m ih =>
    intro i h
    rw [pollTargetFrom, pollTargetFrom, h i (le_refl i) (by omega)]
    by_cases hr : isStatus (statusField (resp' i)) "READY"
    · simp [hr]
    · by_cases hf : isStatus (statusField (resp' i)) "FAILED"
      · simp [hr, hf]
      · simp only [hr, hf, Bool.false_eq_true, if_false]
        exact ih (i + 1) (fun k hk1 hk2 => h k (by omega) (by omega))

/-- A `FAILED` observation not preceded by `READY` makes the loop end in
the raising branch. -/
theorem pollTargetFrom_failed_of (resp : Nat → List (String × Json)) :
    ∀ (n i k : Nat), k < n →
      isStatus (statusField (resp (i + k))) "FAILED" = true →
      (∀ j, j ≤ k → isStatus (statusField (resp (i + j))) "READY" = false) →
      ∃ m, pollTargetFrom resp i n = PollOutcome.failed m := by
  intro n
  induction n with
  | zero => intro i k hk; omega
  | succ m ih =>
    intro i k hk hf hnr
    have h0 : isStatus (statusField (resp i)) "READY" = false := by
      have := hnr 0 (Nat.zero_le k)
      simpa using this
    by_cases hf0 : isStatus (statusField (resp i)) "FAILED"
    · exact ⟨i, by rw [pollTargetFrom]; simp [h0, hf0]⟩
    · cases k with
      | zero => simp at hf; exact absurd hf hf0
      | succ k2 =>
        have hf2 : isStatus (statusField (resp ((i + 1) + k2))) "FAILED" = true := by
          have e : (i + 1) + k2 = i + (k2 + 1) := by omega
          rw [e]; exact hf
        have hnr2 : ∀ j, j ≤ k2 → isStatus (statusField (resp ((i + 1) + j))) "READY" = false := by
          intro j hj
          have e : (i + 1) + j = i + (j + 1) := by omega
          rw [e]; exact hnr (j + 1) (by omega)
        obtain ⟨m2, hm⟩ := ih (i + 1) k2 (by omega) hf2 hnr2
        refine ⟨m2, ?_⟩
        rw [pollTargetFrom]
        simp only [h0, hf0, Bool.false_eq_true, if_false]
        exact hm

/-- With neither `READY` nor `FAILED` ever observed, the loop runs out
of attempts and ends silently. -/
theorem pollTargetFrom_exhausted_of (resp : Nat → List (String × Json)) :
    ∀ (n i : Nat),
      (∀ k, k < n → isStatus (statusField (resp (i + k))) "READY" = false
            ∧ isStatus (statusField (resp (i + k))) "FAILED" = false) →
      pollTargetFrom resp i n = PollOutcome.exhausted := by
  intro n
  induction n with
  | zero => intro i h; rfl
  | succ m ih =>
    intro i h
    have h0 := h 0 (by omega)
    simp only [Nat.add_zero] at h0
    rw [pollTargetFrom]
    simp only [h0.1, h0.2, Bool.false_eq_true, if_false]
    exact ih (i + 1) (fun k hk => by
      have e : (i + 1) + k = i + (k + 1) := by omega
      rw [e]
      exact h (k + 1) (by omega))

/-!
## Claim theorems
-/

/-- Claim C1, counterexample: for the embedded text consisting of a
non-JSON prefix, the one-result JSON object, and the non-empty non-JSON
suffix ` suffix`, source extraction produces no source at all — not the
one source the claim states — because `json.loads` rejects the trailing
data after the object. -/
theorem extract_sources_trailing_suffix_yields_none :
    extract_sources resultTextWithSuffix = []
    ∧ (extract_sources resultTextWithSuffix).length ≠ 1 := ⟨rfl, by decide⟩

/-- Claim C1, amended: decoding starts at the first brace of the
embedded text, and when nothing but whitespace follows the JSON object
the extraction yields exactly the one source
`(title: A, url: https://a.com)`; a non-empty non-JSON suffix makes the
decode fail and the extraction silently yields no sources. -/
theorem extract_sources_decodes_from_first_brace :
    extract_sources resultTextNoSuffix = [⟨Json.str "A", Json.str "https://a.com"⟩]
    ∧ extract_sources resultTextWithSuffix = [] := ⟨rfl, rfl⟩

/-- Claim C2, counterexample: a run of `add_valyu_target` and of the
`setup_valyu_gateway` polling phase in which all 12 attempts observe
`CREATING` — never `READY` — returns normally instead of raising, so
the loop does not raise on cap exhaustion. -/
theorem polling_exhaustion_returns_normally :
    add_valyu_target "g" "t" "us-east-1" creatingResp
      = Except.ok ⟨"t", "g", "us-east-1", "READY"⟩
    ∧ setup_poll_phase creatingResp = Except.ok ()
    ∧ pollTarget creatingResp = PollOutcome.exhausted := ⟨rfl, rfl, by decide⟩

/-- Claim C2, amended: both polling loops use a fixed 10-second sleep
and a 12-attempt cap and read nothing beyond their 12-observation
window; a `FAILED` observation (not preceded by `READY`) makes both
functions raise; but when all 12 attempts pass without `READY` or
`FAILED` neither function raises — the loop ends silently and both
return normally. -/
theorem gateway_poll_raises_on_failed_not_on_exhaustion :
    (POLL_INTERVAL_SECONDS = 10 ∧ POLL_ATTEMPTS = 12)
    ∧ (∀ resp resp' : Nat → List (String × Json),
        (∀ k, k < POLL_ATTEMPTS → resp k = resp' k) → pollTarget resp = pollTarget resp')
    ∧ (∀ (g t r : String) (resp : Nat → List (String × Json)) (k : Nat),
        k < POLL_ATTEMPTS →
        isStatus (statusField (resp k)) "FAILED" = true →
        (∀ j, j ≤ k → isStatus (statusField (resp j)) "READY" = false) →
        raised (add_valyu_target g t r resp) = true ∧ raised (setup_poll_phase resp) = true)
    ∧ (∀ (g t r : String) (resp : Nat → List (String × Json)),
        (∀ k, k < POLL_ATTEMPTS → isStatus (statusField (resp k)) "READY" = false
              ∧ isStatus (statusField (resp k)) "FAILED" = false) →
        add_valyu_target g t r resp = Except.ok ⟨t, g, r, "READY"⟩
        ∧ setup_poll_phase resp = Except.ok ()) := by
  refine ⟨⟨rfl, rfl⟩, ?_, ?_, ?_⟩
  · intro resp resp' h
    exact pollTargetFrom_congr resp resp' POLL_ATTEMPTS 0 (fun k hk1 hk2 => h k (by omega))
  · intro g t r resp k hk hf hnr
    obtain ⟨m, hm⟩ := pollTargetFrom_failed_of resp POLL_ATTEMPTS 0 k hk
      (by simpa using hf) (fun j hj => by simpa using hnr j hj)
    have hp : pollTarget resp = PollOutcome.failed m := hm
    constructor
    · simp [add_valyu_target, hp, raised]
    · simp [setup_poll_phase, hp, raised]
  · intro g t r resp h
    have hp : pollTarget resp = PollOutcome.exhausted :=
      pollTargetFrom_exhausted_of resp POLL_ATTEMPTS 0 (fun k hk => by simpa using h k hk)
    constructor
    · simp [add_valyu_target, hp]
    · simp [setup_poll_phase, hp]

/-- Claim C2, witness: a trace failing on the fourth attempt makes
`add_valyu_target` raise, and an always-`CREATING` trace makes it
return normally. -/
theorem gateway_poll_raises_on_failed_not_on_exhaustion_witness :
    raised (add_valyu_target "g" "t" "us-east-1" failThirdResp) = true
    ∧ add_valyu_target "g" "t" "us-east-1" creatingResp
        = Except.ok ⟨"t", "g", "us-east-1", "READY"⟩ :=
  ⟨(gateway_poll_raises_on_failed_not_on_exhaustion.2.2.1 "g" "t" "us-east-1"
      failThirdResp 3 (by decide) (by decide) (by decide)).1,
   (gateway_poll_raises_on_failed_not_on_exhaustion.2.2.2 "g" "t" "us-east-1"
      creatingResp (by decide)).1⟩

/-- Claim C3, counterexample: one extraction call over a payload whose
two entries share the URL `https://a.com` produces a list with that URL
twice — a duplicate URL is re-added. -/
theorem extract_sources_duplicate_url_readded :
    extract_sources resultTextDupUrl =
      [⟨Json.str "A", Json.str "https://a.com"⟩, ⟨Json.str "B", Json.str "https://a.com"⟩]
    ∧ (extract_sources resultTextDupUrl).map Source.url =
      [Json.str "https://a.com", Json.str "https://a.com"]
    ∧ (extract_sources resultTextDupUrl).length = 2 := ⟨rfl, rfl, by decide⟩

/-- Claim C3, amended: within a single source-extraction call the
produced list is the in-order filterMap of the first ten entries — the
insertion order of entries is preserved, and a URL already present is
appended again (the loop performs no URL-based de-duplication). -/
theorem extraction_appends_in_order_without_dedup (rs : List Json)
    (h : ∀ r ∈ rs.take 10, (stepEntry r).isSome) :
    extractFromData (Json.obj [("results", Json.arr rs)]) =
      some ((rs.take 10).filterMap (fun r => (stepEntry r).bind id)) :=
  extractFromData_results rs h

/-- Claim C3, witness for the amended theorem: applied to two entries
sharing a URL, both sources appear, in order. -/
theorem extraction_appends_in_order_without_dedup_witness :
    extractFromData (Json.obj [("results", Json.arr dupEntries)]) =
      some [⟨Json.str "A", Json.str "https://a.com"⟩, ⟨Json.str "B", Json.str "https://a.com"⟩] :=
  (extraction_appends_in_order_without_dedup dupEntries (by decide)).trans rfl

/-- Claim C4: a line that is empty, fails JSON decoding, or decodes to
a non-dict value leaves the reducer state unchanged and emits no
notification (so with nothing queued the consumer state — tools used,
sources found — is also unchanged), and the line does not terminate the
stream: the reduction step returns normally with no terminal
notification. -/
theorem reduceLine_bad_line_is_noop (st : RState) (line : String)
    (h : line = "" ∨ jsonLoads (stripSSE line) = none ∨
         ∃ j, jsonLoads (stripSSE line) = some j ∧ j.isObj = false) :
    reduceLine st line = some (st, []) ∧ ∀ c : CState, consumeAll c [] = c := by
  refine ⟨?_, fun c => rfl⟩
  rcases h with h | h | ⟨j, hj, hobj⟩
  · simp [reduceLine, h]
  · by_cases hl : line = ""
    · simp [reduceLine, hl]
    · simp [reduceLine, hl, h]
  · by_cases hl : line = ""
    · simp [reduceLine, hl]
    · simp [reduceLine, hl, hj, hobj]

/-- Claim C4, witness: the SSE line `data: [1, 2]` decodes to a
non-dict and is a no-op. -/
theorem reduceLine_bad_line_is_noop_witness :
    reduceLine ⟨"abc", true⟩ "data: [1, 2]" = some (⟨"abc", true⟩, [])
    ∧ consumeAll initCState [] = initCState :=
  ⟨(reduceLine_bad_line_is_noop ⟨"abc", true⟩ "data: [1, 2]"
      (Or.inr (Or.inr ⟨Json.arr [Json.num 1, Json.num 2], rfl, rfl⟩))).1,
   (reduceLine_bad_line_is_noop ⟨"abc", true⟩ "data: [1, 2]"
      (Or.inr (Or.inr ⟨Json.arr [Json.num 1, Json.num 2], rfl, rfl⟩))).2 initCState⟩

/-- Claim C5: feeding a tool-start for `ns___toolA`, then any text
delta, then the same tool-start again yields a final tools-used list of
exactly `[toolA]` (the name is normalized to the part after the last
`___` and added only when not already present), while two tool-start
notifications remain observable in the emitted stream. -/
theorem tool_name_dedup_two_notifications (t : String) :
    (runEvents initRState [toolStartEv, textDeltaEv t, toolStartEv]).map
        (fun p => ((consumeAll initCState p.2).tools_used, (p.2.filter Msg.isTool).length))
      = some (["toolA"], 2) := by
  by_cases ht : t = ""
  · subst ht
    rfl
  · simp [runEvents, reduceEvent_toolStart, reduceEvent_textDelta _ t ht,
      consumeAll, consumeMsg, pyReplace_toolA, Msg.isTool, initRState, initCState]

/-- Claim C5, witness: the scenario at the concrete text `hi`. -/
theorem tool_name_dedup_two_notifications_witness :
    (runEvents initRState [toolStartEv, textDeltaEv "hi", toolStartEv]).map
        (fun p => ((consumeAll initCState p.2).tools_used, (p.2.filter Msg.isTool).length))
      = some (["toolA"], 2) :=
  tool_name_dedup_two_notifications "hi"

/-- Claim C6: when the consumer's accumulated text is empty as the
terminal done notification carrying `hello` is consumed, the final
answer is `hello`; when it is non-empty, the carried string is not
adopted and the accumulated text stands. -/
theorem done_adopts_final_text_iff_empty (st : CState) :
    (st.full_response = "" → (consumeMsg st (Msg.done "hello")).1.full_response = "hello")
    ∧ (st.full_response ≠ "" → (consumeMsg st (Msg.done "hello")).1 = st) := by
  constructor
  · intro h
    simp [consumeMsg, h]
  · intro h
    simp [consumeMsg, h]

/-- Claim C6, witness: both branches at concrete states. -/
theorem done_adopts_final_text_iff_empty_witness :
    (consumeMsg initCState (Msg.done "hello")).1.full_response = "hello"
    ∧ (consumeMsg ⟨"x", [], []⟩ (Msg.done "hello")).1 = (⟨"x", [], []⟩ : CState) :=
  ⟨(done_adopts_final_text_iff_empty initCState).1 rfl,
   (done_adopts_final_text_iff_empty ⟨"x", [], []⟩).2 (by decide)⟩

/-- Claim C7: a message-start or tool-name-free content-block-start
event appends a paragraph break (and emits the matching text
notification) exactly when the accumulated text is non-empty and does
not already end in a newline; in particular two consecutive
message-start events on text already ending in a double newline append
nothing. -/
theorem paragraph_break_heuristic_idempotent :
    (∀ st : RState, reduceEvent st msgStartEv =
      some (if st.full_response ≠ "" ∧ ¬ pyEndsWith st.full_response "\n"
            then ({ st with full_response := st.full_response ++ "\n\n" }, [Msg.text "\n\n"])
            else (st, [])))
    ∧ (∀ st : RState, reduceEvent st cbStartNoToolEv =
      some (if st.full_response ≠ "" ∧ ¬ pyEndsWith st.full_response "\n"
            then ({ st with full_response := st.full_response ++ "\n\n" }, [Msg.text "\n\n"])
            else (st, [])))
    ∧ (∀ st : RState, pyEndsWith st.full_response "\n\n" = true →
        runEvents st [msgStartEv, msgStartEv] = some (st, [])) := by
  refine ⟨reduceEvent_msgStart, reduceEvent_cbStartNoTool, ?_⟩
  intro st h
  have h2 : ("\n\n".toList) <:+ st.full_response.toList := of_decide_eq_true h
  have h1 : pyEndsWith st.full_response "\n" = true :=
    decide_eq_true (List.IsSuffix.trans (by decide) h2)
  simp [runEvents, reduceEvent_msgStart, h1]

/-- Claim C7, witness: two message-starts after `para` followed by a
double newline change nothing. -/
theorem paragraph_break_heuristic_idempotent_witness :
    runEvents ⟨"para\n\n", false⟩ [msgStartEv, msgStartEv] = some (⟨"para\n\n", false⟩, []) :=
  paragraph_break_heuristic_idempotent.2.2 ⟨"para\n\n", false⟩ (by decide)

/-- Claim C8: a payload of 11 entries, each carrying a non-empty string
URL, extracts exactly the first 10 in order; an entry lacking both URL
and source fallback is skipped rather than emitted; and every emitted
source's title, when a string, has at most 60 characters. -/
theorem tool_result_cap_skip_truncate :
    (∀ rs : List Json, rs.length = 11 → (∀ r ∈ rs, entryUrlOk r = true) →
      extractFromData (Json.obj [("results", Json.arr rs)]) =
        some ((rs.take 10).filterMap (fun r => (stepEntry r).bind id))
      ∧ ((rs.take 10).filterMap (fun r => (stepEntry r).bind id)).length = 10)
    ∧ (∀ r : Json, entryLacksUrl r = true → stepEntry r = some none)
    ∧ (∀ (d : Json) (l : List Source), extractFromData d = some l →
        ∀ s ∈ l, ∀ t, s.title = Json.str t → t.length ≤ 60) := by
  refine ⟨?_, stepEntry_of_entryLacksUrl, ?_⟩
  · intro rs hlen hok
    have h10 : ∀ r ∈ rs.take 10, (stepEntry r).isSome :=
      fun r hr => (stepEntry_of_entryUrlOk r (hok r (List.mem_of_mem_take hr))).1
    refine ⟨extractFromData_results rs h10, ?_⟩
    have hbind : ∀ r ∈ rs.take 10, ((stepEntry r).bind id).isSome :=
      fun r hr => (stepEntry_of_entryUrlOk r (hok r (List.mem_of_mem_take hr))).2
    rw [length_filterMap_of_isSome _ _ hbind, List.length_take, hlen]
    decide
  · intro d l h s hs t ht
    unfold extractFromData at h
    cases hg : pyGet d "results" (Json.arr []) with
    | none => rw [hg] at h; simp at h
    | some resultsJ =>
      rw [hg] at h
      simp at h
      cases hsl : pySlice resultsJ 10 with
      | none => rw [hsl] at h; simp at h
      | some sliced =>
        rw [hsl] at h
        simp at h
        cases hit : pyIter sliced with
        | none => rw [hit] at h; simp at h
        | some items =>
          rw [hit] at h
          simp at h
          exact extractLoop_title_len items [] l h (by simp) s hs t ht

/-- Claim C8, witness: eleven concrete entries yield ten sources; a
URL-less entry is skipped; a concrete title obeys the bound. -/
theorem tool_result_cap_skip_truncate_witness :
    extractFromData (Json.obj [("results", Json.arr elevenResults)]) =
      some ((elevenResults.take 10).filterMap (fun r => (stepEntry r).bind id))
    ∧ ((elevenResults.take 10).filterMap (fun r => (stepEntry r).bind id)).length = 10
    ∧ stepEntry (Json.obj [("note", Json.str "no url here")]) = some none
    ∧ ("T0" : String).length ≤ 60 :=
  ⟨(tool_result_cap_skip_truncate.1 elevenResults (by decide) (by decide)).1,
   (tool_result_cap_skip_truncate.1 elevenResults (by decide) (by decide)).2,
   tool_result_cap_skip_truncate.2.1 (Json.obj [("note", Json.str "no url here")]) (by decide),
   tool_result_cap_skip_truncate.2.2
     (Json.obj [("results", Json.arr [Json.obj [("url", Json.str "https://u0"), ("title", Json.str "T0")]])])
     [⟨Json.str "T0", Json.str "https://u0"⟩] rfl
     ⟨Json.str "T0", Json.str "https://u0"⟩ (List.mem_cons_self _ _) "T0" rfl⟩

/-- Claim C9: on a transport failure, exactly one done notification is
always delivered; accumulated text longer than 100 characters is
adopted with the incompleteness note appended; otherwise the CLI
fallback's answer is delivered, or the generic connection-failed string
when the fallback raised too. -/
theorem transport_failure_two_tier_fallback (full : String) (cli : Option String) :
    ((handleStreamFailure full cli).filter Msg.isDone).length = 1
    ∧ (full.length > 100 → handleStreamFailure full cli = [Msg.done (full ++ incompleteNote)])
    ∧ (full.length ≤ 100 →
        handleStreamFailure full cli =
          [Msg.tool "Reconnecting...",
           match cli with
           | some r => Msg.done r
           | none => Msg.done connectionFailedMsg]) := by
  refine ⟨?_, ?_, ?_⟩
  · by_cases h : full ≠ "" ∧ full.length > 100
    · simp [handleStreamFailure, h, Msg.isDone]
    · cases cli <;> simp [handleStreamFailure, h, Msg.isDone]
  · intro hlen
    have hne : full ≠ "" := by
      intro he
      rw [he] at hlen
      simp at hlen
    simp [handleStreamFailure, hne, hlen]
  · intro hlen
    have hc : ¬ (full ≠ "" ∧ full.length > 100) := by
      rintro ⟨-, h2⟩
      omega
    cases cli <;> simp [handleStreamFailure, hc]

/-- Claim C9, witness: the three fallback tiers at concrete inputs. -/
theorem transport_failure_two_tier_fallback_witness :
    handleStreamFailure longResponse none = [Msg.done (longResponse ++ incompleteNote)]
    ∧ handleStreamFailure "short" (some "cli answer") =
        [Msg.tool "Reconnecting...", Msg.done "cli answer"]
    ∧ handleStreamFailure "short" none =
        [Msg.tool "Reconnecting...", Msg.done connectionFailedMsg] :=
  ⟨(transport_failure_two_tier_fallback longResponse none).2.1 (by decide),
   (transport_failure_two_tier_fallback "short" (some "cli answer")).2.2 (by decide),
   (transport_failure_two_tier_fallback "short" none).2.2 (by decide)⟩

/-- Claim C10: whenever `add_valyu_target` returns without raising —
whatever statuses the polling loop observed, including exhaustion of
all 12 attempts without `READY` — the returned dict's status field is
the literal string `READY`. -/
theorem add_valyu_target_ok_status_ready (g t r : String)
    (resp : Nat → List (String × Json)) (d : AddTargetResult)
    (h : add_valyu_target g t r resp = Except.ok d) : d.status = "READY" := by
  unfold add_valyu_target at h
  cases hp : pollTarget resp with
  | ready i => rw [hp] at h; injection h with h1; rw [← h1]
  | failed i => rw [hp] at h; exact Except.noConfusion h
  | exhausted => rw [hp] at h; injection h with h1; rw [← h1]

/-- Claim C10, witness: applied to the trace in which all 12 attempts
observe `CREATING`, so the function returns after exhaustion and the
returned status is still the literal `READY`. -/
theorem add_valyu_target_ok_status_ready_witness :
    (AddTargetResult.mk "t" "g" "us-east-1" "READY").status = "READY" :=
  add_valyu_target_ok_status_ready "g" "t" "us-east-1" creatingResp _ rfl
